import Mathlib

/-
Verification development for the classroom-feedback-gpt repository.

We shallowly embed the submission & auto-grading pipeline:
  * `get_grader.py` : `build_grading_messages`, `grade_with_gpt`
  * `app.py`        : the `submit_code` route (rate limit, attempt
    sequencing, submission row creation)
  * `models.py`     : the `Problem`, `Student`, `Submission` rows
    (only the columns the pipeline reads or writes).

Modelling conventions:
  * Python exceptions are modelled with `Except PyErr`; a function that
    cannot raise returns a plain value.
  * The external OpenAI client call is modelled by its observable
    outcome (`OracleOutcome`): either the call raises, or it returns a
    message whose `content` is `None`, the empty string, a string that
    `json.loads` rejects, or a string that parses to a JSON value.
    `json` is an external library, so the parse outcome (not the raw
    byte string) is the interface we embed; JSON numbers are modelled
    as integers (the claims under study are decided on integers).
  * `datetime.utcnow()` is modelled as an integer number of seconds;
    within one request the single request time stands for both the
    rate-limit `now` and the row's `created_at` default (the code reads
    the clock twice a few seconds apart, which is immaterial to the
    sequential claims studied here).
  * Python truthiness of `x or d` on strings/ints/None is translated
    explicitly at each site (`None`/`""`/`0` select the default).
-/

namespace CF

/-- JSON values as produced by `json.loads`, with numbers restricted to
integers.  Objects carry the field list; duplicate keys resolve to the
last occurrence, as the Python dict built by `json.loads` does. -/
inductive JVal where
  | jnull
  | jbool (b : Bool)
  | jint (n : Int)
  | jstr (s : String)
  | jarr (elems : List JVal)
  | jobj (fields : List (String × JVal))

/-- Python exceptions that the grading path can raise. -/
inductive PyErr where
  | apiError (msg : String)
  | jsonDecodeError (raw : String)
  | attributeError (attr : String)
  | valueError (literal : String)
  | typeError (what : String)
deriving Repr, DecidableEq

/-- Rendering of `str(e)` used by the fallback summary f-string.  The
concrete texts stand for CPython's messages (whose exact wording is a
library detail); the claims only require that the failure is recorded. -/
def pyErrStr : PyErr → String
  | .apiError msg => msg
  | .jsonDecodeError raw => "Invalid JSON: " ++ raw
  | .attributeError attr => "object has no attribute " ++ attr
  | .valueError literal => "invalid literal for int: " ++ literal
  | .typeError what => "int argument cannot be " ++ what

/-- The observable content of `completion.choices[0].message.content`:
`None`, the empty string, a non-JSON string, or a string parsing to a
JSON value. -/
inductive OracleContent where
  | noContent
  | emptyContent
  | notJson (raw : String)
  | ofJson (v : JVal)

/-- Outcome of the `client.chat.completions.create` call: the call
itself raises, or it returns a completion with some content. -/
inductive OracleOutcome where
  | apiError (msg : String)
  | response (content : OracleContent)

/-- Characters stripped by Python `str.strip()` (ASCII whitespace;
the prompts and defaults under study are ASCII-clean). -/
def isPySpace (c : Char) : Bool :=
  c = ' ' || c = '\t' || c = '\n' || c = '\r' || c = '\x0b' || c = '\x0c'

/-- Strip `isPySpace` characters from both ends of a character list. -/
def stripChars (l : List Char) : List Char :=
  ((l.dropWhile isPySpace).reverse.dropWhile isPySpace).reverse

/-- Python `str.strip()`. -/
def pyStrip (s : String) : String := String.mk (stripChars s.data)

/-- Validity of the part of an `int(...)` string literal after the
optional sign: digits with single underscores strictly between digits. -/
def intBodyRest : List Char → Bool
  | [] => true
  | '_' :: [] => false
  | '_' :: c :: rest => c.isDigit && intBodyRest (c :: rest)
  | c :: rest => c.isDigit && intBodyRest rest

/-- A nonempty digit body starting with a digit. -/
def intBodyOk : List Char → Bool
  | [] => false
  | c :: rest => c.isDigit && intBodyRest rest

/-- Numeric value of a digit/underscore body. -/
def digitsVal (l : List Char) : Nat :=
  l.foldl (fun acc c => if c = '_' then acc else acc * 10 + (c.toNat - '0'.toNat)) 0

/-- Python `int(s)` on a string: strip whitespace, optional sign,
decimal digits with underscore separators; anything else raises
`ValueError` (modelled as `none`). -/
def strToInt? (s : String) : Option Int :=
  match stripChars s.data with
  | '+' :: rest => if intBodyOk rest then some (Int.ofNat (digitsVal rest)) else none
  | '-' :: rest => if intBodyOk rest then some (-(Int.ofNat (digitsVal rest))) else none
  | rest => if intBodyOk rest then some (Int.ofNat (digitsVal rest)) else none

/-- Python `int(x)` on a JSON-decoded value: ints are returned, bools
coerce (`int(True) = 1`), numeric strings parse, everything else raises
(`TypeError` for `None`/containers, `ValueError` for bad strings). -/
def pyToInt : JVal → Except PyErr Int
  | .jint n => .ok n
  | .jbool b => .ok (if b then 1 else 0)
  | .jstr s =>
      match strToInt? s with
      | some n => .ok n
      | none => .error (.valueError s)
  | .jnull => .error (.typeError "NoneType")
  | .jarr _ => .error (.typeError "list")
  | .jobj _ => .error (.typeError "dict")

/-- Python `x.strip()` on a JSON-decoded value: only strings have
`.strip`; any other value raises `AttributeError`. -/
def pyStrStrip : JVal → Except PyErr String
  | .jstr s => .ok (pyStrip s)
  | _ => .error (.attributeError "strip")

/-- Lookup in the dict built by `json.loads` from an object's field
list: the last binding of a duplicated key wins. -/
def dictGet (fields : List (String × JVal)) (key : String) : Option JVal :=
  fields.foldl (fun acc kv => if kv.1 = key then some kv.2 else acc) none

/-- The `Problem` row (`models.py`), restricted to the columns the
grading pipeline reads.  `sample_input`, `sample_output` and
`max_score` are nullable columns. -/
structure Problem where
  id : Nat
  title : String
  description : String
  sample_input : Option String
  sample_output : Option String
  answer_code : String
  rubric : String
  is_open : Bool
  max_score : Option Int
deriving Repr, DecidableEq

/-- The `Student` row (`models.py`), restricted to the columns the
pipeline reads. -/
structure Student where
  id : Nat
  grade : Nat
  class_no : Nat
  student_no : Nat
  name : String
deriving Repr, DecidableEq

/-- Zero-padded two-digit rendering, Python `f"{n:02d}"` for `n ≥ 0`. -/
def pad2 (n : Nat) : String :=
  if n < 10 then "0" ++ toString n else toString n

/-- `Student.student_code` property: `f"{grade}{class_no:02d}{student_no:02d}"`. -/
def student_code (s : Student) : String :=
  toString s.grade ++ pad2 s.class_no ++ pad2 s.student_no

/-- `getattr(problem, "max_score", 10) or 10`: the problem's max score,
with `None` and `0` both replaced by the default 10. -/
def problemMaxScore (p : Problem) : Int :=
  match p.max_score with
  | none => 10
  | some m => if m = 0 then 10 else m

/-- The normalized grading result dict returned by `grade_with_gpt`:
keys `score`, `max_score`, `feedback`, `summary`, `model`. -/
structure GradingResult where
  score : Int
  max_score : Int
  feedback : String
  summary : String
  model : String
deriving Repr, DecidableEq

/-- `model_name or DEFAULT_GPT_MODEL`: `None` and `""` are falsy. -/
def pickModel (default_gpt_model : String) (model_name : Option String) : String :=
  match model_name with
  | none => default_gpt_model
  | some s => if s = "" then default_gpt_model else s

/-- One chat message, `{"role": ..., "content": ...}`. -/
structure ChatMessage where
  role : String
  content : String
deriving Repr, DecidableEq

/-- `problem.sample_input or "없음"` (and likewise for the sample
output): `None` and the empty string fall back to the marker. -/
def orMarker : Option String → String
  | none => "없음"
  | some s => if s = "" then "없음" else s

/-- The system message of `build_grading_messages` (`get_grader.py`),
the verbatim triple-quoted `system_prompt`. -/
def system_prompt : String :=
  "\n당신은 고등학교 파이썬 기초 문법 과제를 채점하는 조교입니다.\n학생의 코드를 실행하지 않고, 정적 분석과 문제 요구사항을 기준으로 채점합니다.\n\n[역할 / 원칙]\n- 점수는 0에서 max_score 사이의 정수로 평가합니다.\n- 출력이 요구사항과 거의 맞지만 사소한 오류(띄어쓰기, 따옴표 등)가 있으면 약간 감점합니다.\n- 문법 오류나 실행 불가능한 코드는 크게 감점합니다.\n- 피드백은 한국어로, 친절하고 구체적으로 작성합니다.\n- 학생이 스스로 생각해 볼 수 있도록, \"정답 코드 전체\"를 그대로 제공하지 않습니다.\n- 필요한 경우, 짧은 코드 조각(한두 줄)이나 의사코드는 허용되지만,\n  \"정답은 아래와 같습니다:\"와 같이 완전한 정답 코드를 제시하지 않습니다.\n- 학생의 현재 코드를 바탕으로 무엇이 잘못되었는지, 어떻게 수정하면 좋을지 설명하는 데 집중합니다.\n\n[출력 형식]\n- 반드시 JSON 형식으로만 응답해야 합니다.\n- JSON 바깥에 다른 설명 텍스트를 절대 쓰지 않습니다.\n"

/-- The user message of `build_grading_messages` (`get_grader.py`), the
verbatim f-string `user_prompt` with its interpolations. -/
def user_prompt (problem : Problem) (code : String) (student_label : String) : String :=
  "\n[문제 정보]\n- 제목: " ++ problem.title ++
  "\n- 설명: " ++ problem.description ++
  "\n\n[예시 입력]\n" ++ orMarker problem.sample_input ++
  "\n\n[예시 출력]\n" ++ orMarker problem.sample_output ++
  "\n\n[정답 예시 코드]\n" ++ problem.answer_code ++
  "\n\n[채점 기준 (루브릭)]\n" ++ problem.rubric ++
  "\n\n[학생 정보]\n" ++ student_label ++
  "\n\n[학생 제출 코드]\n" ++ code ++
  "\n\n위 정보를 바탕으로 아래 JSON 스키마에 맞게 채점 결과를 반환하세요.\n\n- score: 점수 (0 ~ max_score 정수)\n- max_score: 만점 (정수)\n- feedback: 학생에게 보여줄 구체적인 피드백 (한국어, 여러 줄 가능)\n- summary: 교사용 짧은 요약 (한두 문장)\n\nJSON 예시:\n\x7b\n  \"score\": 8,\n  \"max_score\": 10,\n  \"feedback\": \"print 문 끝에 괄호를 닫지 않았습니다. 문제에서 요구한 문장을 그대로 출력하세요.\",\n  \"summary\": \"출력 문법은 이해했으나, 세부 문법 오류로 감점.\"\n\x7d\n"

/-- `build_grading_messages(problem, code, student_label)`
(`get_grader.py`): the system / user message pair sent to the oracle. -/
def build_grading_messages (problem : Problem) (code : String) (student_label : String) :
    List ChatMessage :=
  [ { role := "system", content := system_prompt }
  , { role := "user", content := user_prompt problem code student_label } ]

/-- `completion.choices[0].message.content or "{}"`, fed to
`json.loads`: `None` and `""` become `"{}"`, which parses to the empty
object; a malformed string raises `json.JSONDecodeError`. -/
def parseContent : OracleContent → Except PyErr JVal
  | .noContent => .ok (.jobj [])
  | .emptyContent => .ok (.jobj [])
  | .notJson raw => .error (.jsonDecodeError raw)
  | .ofJson v => .ok v

/-- The four field extractions of `grade_with_gpt` once `data` is a
dict, in source order; any raising coercion aborts the remainder:

    score = int(data.get("score", 0))
    max_score = int(data.get("max_score", getattr(problem, "max_score", 10) or 10))
    feedback = data.get("feedback", "").strip()
    summary = data.get("summary", "").strip()
-/
def gradeFields (problem : Problem) (model : String) (fields : List (String × JVal)) :
    Except PyErr GradingResult := do
  let score ← pyToInt ((dictGet fields "score").getD (.jint 0))
  let max_score ← pyToInt ((dictGet fields "max_score").getD (.jint (problemMaxScore problem)))
  let feedback ← pyStrStrip ((dictGet fields "feedback").getD (.jstr ""))
  let summary ← pyStrStrip ((dictGet fields "summary").getD (.jstr ""))
  return { score := score, max_score := max_score, feedback := feedback,
           summary := summary, model := model }

/-- The body of the `try:` block of `grade_with_gpt`: oracle call, JSON
parse, field extraction.  A non-dict JSON value raises
`AttributeError` at the first `data.get`. -/
def gradeAttempt (problem : Problem) (model : String) (outcome : OracleOutcome) :
    Except PyErr GradingResult :=
  match outcome with
  | .apiError msg => .error (.apiError msg)
  | .response content =>
      match parseContent content with
      | .error e => .error e
      | .ok (.jobj fields) => gradeFields problem model fields
      | .ok _ => .error (.attributeError "get")

/-- The fallback dict built in the `except Exception as e:` handler of
`grade_with_gpt`. -/
def fallbackResult (problem : Problem) (model : String) (e : PyErr) : GradingResult :=
  { score := 0
  , max_score := problemMaxScore problem
  , feedback := "자동 채점에 실패했습니다. 선생님께 문의하세요."
  , summary := "자동 채점 실패: " ++ pyErrStr e
  , model := model }

/-- `grade_with_gpt(problem, code, student_label, model_name)`
(`get_grader.py`).  `default_gpt_model` stands for the module constant
`DEFAULT_GPT_MODEL` read from the environment.  The `Except` result
records whether the call, as a whole, raises to its caller: the
`except Exception` handler maps every failure of the `try:` body to an
ordinary fallback return value. -/
def grade_with_gpt (default_gpt_model : String) (problem : Problem) (code : String)
    (student_label : String) (model_name : Option String) (outcome : OracleOutcome) :
    Except PyErr GradingResult :=
  let model := pickModel default_gpt_model model_name
  let _messages := build_grading_messages problem code student_label
  match gradeAttempt problem model outcome with
  | .ok r => .ok r
  | .error e => .ok (fallbackResult problem model e)

/-- The `Submission` row (`models.py`) as written by `submit_code`.
`created_at` is seconds since the epoch (the `datetime.utcnow`
default). -/
structure Submission where
  student_id : Nat
  problem_id : Nat
  code : String
  score : Int
  max_score : Int
  feedback : String
  summary : String
  attempt_no : Nat
  gpt_model : String
  created_at : Int
deriving Repr, DecidableEq

/-- The 24-hour rate window of `submit_code`, in seconds
(`timedelta(hours=24)`). -/
def windowSeconds : Int := 24 * 60 * 60

/-- The rate-limit count of `submit_code` (`app.py`):

    Submission.query
      .filter_by(student_id=student_id, problem_id=problem.id)
      .filter(Submission.created_at >= window_start)
      .count()

with `window_start = now - timedelta(hours=24)`. -/
def recentCount (subs : List Submission) (student_id problem_id : Nat) (now : Int) : Nat :=
  (subs.filter (fun s =>
    s.student_id == student_id && s.problem_id == problem_id &&
    decide (now - windowSeconds ≤ s.created_at))).length

/-- The `Submission(...)` row constructed by `submit_code` from the
grading result, the attempt number and the request data (`created_at`
takes the column default, the current time). -/
def mkSubmission (student : Student) (problem : Problem) (code : String) (now : Int)
    (attempt_no : Nat) (result : GradingResult) : Submission :=
  { student_id := student.id
  , problem_id := problem.id
  , code := code
  , score := result.score
  , max_score := result.max_score
  , feedback := result.feedback
  , summary := result.summary
  , attempt_no := attempt_no
  , gpt_model := result.model
  , created_at := now }

/-- The `submit_code` route (`app.py`), for one request: rate-limit
check, attempt numbering, grading, row insertion.  Returns the store
after the request together with the inserted row (`none` on
rejection); an `Except.error` would mean the request raised. -/
def submit_code (default_gpt_model : String) (subs : List Submission) (student : Student)
    (problem : Problem) (code : String) (now : Int) (outcome : OracleOutcome) :
    Except PyErr (List Submission × Option Submission) := do
  let existing_count := recentCount subs student.id problem.id now
  if existing_count ≥ 10 then
    return (subs, none)
  else
    let attempt_no := existing_count + 1
    let student_label := student_code student ++ " " ++ student.name
    let result ← grade_with_gpt default_gpt_model problem code student_label none outcome
    let submission := mkSubmission student problem code now attempt_no result
    return (subs ++ [submission], some submission)

/-- One submission request: its time, the submitted code, and the
oracle's behaviour on it. -/
abbrev Request : Type := Int × String × OracleOutcome

/-- Run a list of submission requests sequentially through
`submit_code`, threading the submission store. -/
def runSubmissions (default_gpt_model : String) (student : Student) (problem : Problem) :
    List Request → List Submission → Except PyErr (List Submission)
  | [], subs => .ok subs
  | (now, code, o) :: rest, subs => do
      let (subs2, _) ← submit_code default_gpt_model subs student problem code now o
      runSubmissions default_gpt_model student problem rest subs2

/-- The `attempt_no` column of a store, in insertion order (equal to
creation-time order for the sequential runs studied here). -/
def attemptNos (subs : List Submission) : List Nat :=
  subs.map (fun s => s.attempt_no)

/-- A concrete `Problem` used by witnesses. -/
def exProblem : Problem :=
  { id := 1
  , title := "출력 연습"
  , description := "문장을 출력하세요."
  , sample_input := none
  , sample_output := some "Hello"
  , answer_code := "print(\"Hello\")"
  , rubric := "정확한 출력 10점"
  , is_open := true
  , max_score := some 10 }

/-- A concrete `Student` used by witnesses. -/
def exStudent : Student :=
  { id := 7, grade := 1, class_no := 3, student_no := 1, name := "김일번" }

/-! Helper lemmas about the `Except` monad used to unfold the
sequential (first-raise-wins) semantics of the embedded code. -/

@[simp] theorem except_bind_ok {α β ε : Type} (a : α) (f : α → Except ε β) :
    (Except.ok a >>= f) = f a := rfl

@[simp] theorem except_bind_error {α β ε : Type} (e : ε) (f : α → Except ε β) :
    ((Except.error e : Except ε α) >>= f) = Except.error e := rfl

@[simp] theorem except_pure {α ε : Type} (a : α) :
    (pure a : Except ε α) = Except.ok a := rfl

/-- Characterization of a successful pass through the four field
extractions of `grade_with_gpt`: each coercion succeeds and the result
is assembled from the four coerced values. -/
theorem gradeFields_ok_iff (p : Problem) (model : String)
    (fields : List (String × JVal)) (r : GradingResult) :
    gradeFields p model fields = .ok r ↔
      ∃ score max_score feedback summary,
        pyToInt ((dictGet fields "score").getD (.jint 0)) = .ok score ∧
        pyToInt ((dictGet fields "max_score").getD (.jint (problemMaxScore p))) = .ok max_score ∧
        pyStrStrip ((dictGet fields "feedback").getD (.jstr "")) = .ok feedback ∧
        pyStrStrip ((dictGet fields "summary").getD (.jstr "")) = .ok summary ∧
        r = { score := score, max_score := max_score, feedback := feedback,
              summary := summary, model := model } := by
  unfold gradeFields
  cases h1 : pyToInt ((dictGet fields "score").getD (.jint 0)) with
  | error e => simp [h1]
  | ok score =>
    cases h2 : pyToInt ((dictGet fields "max_score").getD (.jint (problemMaxScore p))) with
    | error e => simp [h2]
    | ok max_score =>
      cases h3 : pyStrStrip ((dictGet fields "feedback").getD (.jstr "")) with
      | error e => simp [h3]
      | ok feedback =>
        cases h4 : pyStrStrip ((dictGet fields "summary").getD (.jstr "")) with
        | error e => simp [h4]
        | ok summary =>
          simp only [except_bind_ok, except_pure, Except.ok.injEq]
          constructor
          · intro hr
            exact ⟨score, max_score, feedback, summary, rfl, rfl, rfl, rfl, hr.symm⟩
          · rintro ⟨s', m', f', u', hs, hm, hf, hu, hr⟩
            cases hs; cases hm; cases hf; cases hu
            exact hr.symm

/-- The grading attempt never fails once the handler of
`grade_with_gpt` is taken into account: every outcome of the `try:`
body maps to an ordinary `return`. -/
theorem grade_with_gpt_isOk (d : String) (p : Problem) (c l : String)
    (m : Option String) (o : OracleOutcome) :
    ∃ r : GradingResult, grade_with_gpt d p c l m o = Except.ok r := by
  unfold grade_with_gpt
  cases h : gradeAttempt p (pickModel d m) o with
  | ok r => exact ⟨r, by simp [h]⟩
  | error e => exact ⟨fallbackResult p (pickModel d m) e, by simp [h]⟩

/-- Python `"".strip()` is the empty string. -/
@[simp] theorem pyStrip_empty : pyStrip "" = "" := rfl

/-- C1: for every Problem, code text, student label and optional model
override, and for every behaviour of the oracle call (API failure,
missing content, non-JSON content, arbitrary JSON value),
`grade_with_gpt` returns an ordinary `GradingResult` (a record with
fields `score`, `max_score`, `feedback`, `summary`, `model`) and never
propagates an exception to its caller. -/
theorem grade_with_gpt_total (d : String) (p : Problem) (c l : String)
    (m : Option String) (o : OracleOutcome) :
    ∃ r : GradingResult, grade_with_gpt d p c l m o = Except.ok r :=
  grade_with_gpt_isOk d p c l m o

/-- C2: whenever any step of the grading attempt fails (oracle call
error, non-JSON content, value coercion failure), `grade_with_gpt`
returns the fallback result: `score = 0`, `max_score` from the Problem
(10 when unset), the fixed apologetic feedback string, a summary
recording the failure, and `model` equal to the attempted model
identifier. -/
theorem grade_with_gpt_fallback_on_failure (d : String) (p : Problem) (c l : String)
    (m : Option String) (o : OracleOutcome) (e : PyErr)
    (h : gradeAttempt p (pickModel d m) o = Except.error e) :
    grade_with_gpt d p c l m o = Except.ok
      { score := 0
      , max_score := problemMaxScore p
      , feedback := "자동 채점에 실패했습니다. 선생님께 문의하세요."
      , summary := "자동 채점 실패: " ++ pyErrStr e
      , model := pickModel d m } := by
  simp [grade_with_gpt, h, fallbackResult]

/-- C2 witness: a concrete API failure yields the concrete fallback. -/
theorem grade_with_gpt_fallback_on_failure_witness :
    gradeAttempt exProblem (pickModel "g" none) (OracleOutcome.apiError "down") =
      Except.error (PyErr.apiError "down") ∧
    grade_with_gpt "g" exProblem "print(1)" "10301 김일번" none (OracleOutcome.apiError "down") =
      Except.ok
        { score := 0
        , max_score := problemMaxScore exProblem
        , feedback := "자동 채점에 실패했습니다. 선생님께 문의하세요."
        , summary := "자동 채점 실패: " ++ pyErrStr (PyErr.apiError "down")
        , model := pickModel "g" none } :=
  ⟨rfl, grade_with_gpt_fallback_on_failure "g" exProblem "print(1)" "10301 김일번" none
      (OracleOutcome.apiError "down") (PyErr.apiError "down") rfl⟩

/-- C6: when the oracle response parses to a JSON object and the field
extraction succeeds, each missing required key independently receives
its default: `score` defaults to 0, `max_score` to the Problem's max
score (10 when unset), and `feedback` / `summary` to the deterministic
default string produced by `"".strip()`, namely the empty string. -/
theorem grade_with_gpt_missing_key_defaults (d : String) (p : Problem) (c l : String)
    (m : Option String) (fields : List (String × JVal)) (r : GradingResult)
    (h : gradeAttempt p (pickModel d m)
          (OracleOutcome.response (OracleContent.ofJson (JVal.jobj fields))) = Except.ok r) :
    grade_with_gpt d p c l m
        (OracleOutcome.response (OracleContent.ofJson (JVal.jobj fields))) = Except.ok r ∧
    (dictGet fields "score" = none → r.score = 0) ∧
    (dictGet fields "max_score" = none → r.max_score = problemMaxScore p) ∧
    (dictGet fields "feedback" = none → r.feedback = "") ∧
    (dictGet fields "summary" = none → r.summary = "") := by
  have hf : gradeFields p (pickModel d m) fields = Except.ok r := h
  rw [gradeFields_ok_iff] at hf
  obtain ⟨s, ms, fb, su, h1, h2, h3, h4, hr⟩ := hf
  subst hr
  refine ⟨by simp [grade_with_gpt, h], ?_, ?_, ?_, ?_⟩
  · intro hmiss
    rw [hmiss] at h1
    simpa [pyToInt] using h1.symm
  · intro hmiss
    rw [hmiss] at h2
    simpa [pyToInt] using h2.symm
  · intro hmiss
    rw [hmiss] at h3
    simpa [pyStrStrip] using h3.symm
  · intro hmiss
    rw [hmiss] at h4
    simpa [pyStrStrip] using h4.symm

/-- C6 witness: the empty JSON object (all four keys missing) grades to
the all-default result. -/
theorem grade_with_gpt_missing_key_defaults_witness :
    gradeAttempt exProblem (pickModel "g" none)
        (OracleOutcome.response (OracleContent.ofJson (JVal.jobj []))) =
      Except.ok { score := 0, max_score := problemMaxScore exProblem, feedback := "",
                  summary := "", model := pickModel "g" none } ∧
    (dictGet ([] : List (String × JVal)) "score" = none →
      ({ score := 0, max_score := problemMaxScore exProblem, feedback := "",
         summary := "", model := pickModel "g" none } : GradingResult).score = 0) :=
  ⟨rfl, (grade_with_gpt_missing_key_defaults "g" exProblem "c" "l" none [] _ rfl).2.1⟩

/-- C7 counterexample: an oracle score of `-3` is returned as `-3`,
violating the claimed guarantee `0 ≤ score`. -/
theorem grade_with_gpt_negative_score_cex :
    grade_with_gpt "g" exProblem "code" "label" none
        (OracleOutcome.response (OracleContent.ofJson
          (JVal.jobj [("score", JVal.jint (-3))]))) =
      Except.ok { score := -3, max_score := 10, feedback := "", summary := "", model := "g" } ∧
    ¬ (0 ≤ (-3 : Int)) :=
  ⟨rfl, by decide⟩

/-- C7 amended: `grade_with_gpt` does not clamp the score at all — for
every integer `v` reported by the oracle, the returned score is exactly
`v`, whether negative or larger than the Problem's max score; the bound
`0 ≤ score` is guaranteed only on the fallback path (where the score is
the constant 0). -/
theorem grade_with_gpt_score_unclamped (d : String) (p : Problem) (c l : String)
    (m : Option String) (v : Int) :
    grade_with_gpt d p c l m
        (OracleOutcome.response (OracleContent.ofJson
          (JVal.jobj [("score", JVal.jint v)]))) =
      Except.ok { score := v, max_score := problemMaxScore p, feedback := "",
                  summary := "", model := pickModel d m } ∧
    (fallbackResult p (pickModel d m) (PyErr.apiError "down")).score = 0 :=
  ⟨rfl, rfl⟩

/-- C10: if the oracle response is a JSON object but coercing its
`score` value to an integer raises, or `score` coerces successfully and
coercing `max_score` raises, then every field parsed so far is
discarded and the complete fallback result is returned — never a
mixture of parsed values and defaults. -/
theorem grade_with_gpt_coercion_failure_full_fallback (d : String) (p : Problem) (c l : String)
    (m : Option String) (fields : List (String × JVal)) (e : PyErr)
    (h : pyToInt ((dictGet fields "score").getD (JVal.jint 0)) = Except.error e ∨
         (∃ s, pyToInt ((dictGet fields "score").getD (JVal.jint 0)) = Except.ok s ∧
            pyToInt ((dictGet fields "max_score").getD
              (JVal.jint (problemMaxScore p))) = Except.error e)) :
    grade_with_gpt d p c l m
        (OracleOutcome.response (OracleContent.ofJson (JVal.jobj fields))) =
      Except.ok
        { score := 0
        , max_score := problemMaxScore p
        , feedback := "자동 채점에 실패했습니다. 선생님께 문의하세요."
        , summary := "자동 채점 실패: " ++ pyErrStr e
        , model := pickModel d m } := by
  have hf : gradeFields p (pickModel d m) fields = Except.error e := by
    unfold gradeFields
    rcases h with h1 | ⟨s, h1, h2⟩
    · rw [h1]; rfl
    · rw [h1, except_bind_ok, h2]; rfl
  have hA : gradeAttempt p (pickModel d m)
      (OracleOutcome.response (OracleContent.ofJson (JVal.jobj fields))) =
        Except.error e := hf
  simp [grade_with_gpt, hA, fallbackResult]

/-- C10 witness: `score` 8 parses, `max_score` is the string `"8.5"`
whose `int(...)` raises; the parsed 8 is discarded and the complete
fallback (score 0) is returned. -/
theorem grade_with_gpt_coercion_failure_full_fallback_witness :
    (pyToInt ((dictGet [("score", JVal.jint 8), ("max_score", JVal.jstr "8.5")] "score").getD
        (JVal.jint 0)) = Except.ok 8 ∧
      pyToInt ((dictGet [("score", JVal.jint 8), ("max_score", JVal.jstr "8.5")]
          "max_score").getD (JVal.jint (problemMaxScore exProblem))) =
        Except.error (PyErr.valueError "8.5")) ∧
    grade_with_gpt "g" exProblem "c" "l" none
        (OracleOutcome.response (OracleContent.ofJson
          (JVal.jobj [("score", JVal.jint 8), ("max_score", JVal.jstr "8.5")]))) =
      Except.ok
        { score := 0
        , max_score := problemMaxScore exProblem
        , feedback := "자동 채점에 실패했습니다. 선생님께 문의하세요."
        , summary := "자동 채점 실패: " ++ pyErrStr (PyErr.valueError "8.5")
        , model := pickModel "g" none } :=
  ⟨⟨rfl, rfl⟩,
    grade_with_gpt_coercion_failure_full_fallback "g" exProblem "c" "l" none
      [("score", JVal.jint 8), ("max_score", JVal.jstr "8.5")] (PyErr.valueError "8.5")
      (Or.inr ⟨8, rfl, rfl⟩)⟩

/-- When every stored row is by the same student for the same problem
and still inside the trailing window, the rate limiter counts the whole
store. -/
theorem recentCount_all (subs : List Submission) (sid pid : Nat) (now : Int)
    (h : ∀ s ∈ subs, s.student_id = sid ∧ s.problem_id = pid ∧
          now - windowSeconds ≤ s.created_at) :
    recentCount subs sid pid now = subs.length := by
  unfold recentCount
  rw [List.filter_eq_self.mpr]
  intro s hs
  obtain ⟨h1, h2, h3⟩ := h s hs
  simp [h1, h2, h3]

/-- An accepted request appends exactly one row, built from the grading
result returned for it, numbered `recentCount + 1`. -/
theorem submit_code_accepts (d : String) (subs : List Submission) (st : Student)
    (p : Problem) (code : String) (now : Int) (o : OracleOutcome)
    (h : recentCount subs st.id p.id now < 10) :
    ∃ r : GradingResult,
      submit_code d subs st p code now o = Except.ok
        (subs ++ [mkSubmission st p code now (recentCount subs st.id p.id now + 1) r],
         some (mkSubmission st p code now (recentCount subs st.id p.id now + 1) r)) := by
  obtain ⟨r, hr⟩ := grade_with_gpt_isOk d p code (student_code st ++ " " ++ st.name) none o
  refine ⟨r, ?_⟩
  simp only [submit_code]
  rw [if_neg (by omega), hr, except_bind_ok]
  rfl

/-- C4: when the trailing-24-hour count for the (student, problem) pair
has reached the ceiling of 10, the request is rejected: no Submission
row is created, the store is returned unchanged (in particular the 10
prior rows are untouched), and no exception escapes. -/
theorem submit_code_rate_limited (d : String) (subs : List Submission) (st : Student)
    (p : Problem) (code : String) (now : Int) (o : OracleOutcome)
    (h : 10 ≤ recentCount subs st.id p.id now) :
    submit_code d subs st p code now o = Except.ok (subs, none) := by
  simp only [submit_code]
  rw [if_pos h]
  rfl

/-- Ten prior rows by `exStudent` for `exProblem`, all recent at time 100. -/
def tenSubs : List Submission :=
  (List.range 10).map (fun i =>
    { student_id := 7, problem_id := 1, code := "c", score := 0, max_score := 10,
      feedback := "", summary := "", attempt_no := i + 1, gpt_model := "g", created_at := 0 })

/-- C4 witness: the 11th request against ten recent rows is rejected
and leaves the ten rows unchanged. -/
theorem submit_code_rate_limited_witness :
    10 ≤ recentCount tenSubs exStudent.id exProblem.id 100 ∧
    submit_code "g" tenSubs exStudent exProblem "c" 100 (OracleOutcome.apiError "down") =
      Except.ok (tenSubs, none) :=
  ⟨by decide, submit_code_rate_limited "g" tenSubs exStudent exProblem "c" 100
      (OracleOutcome.apiError "down") (by decide)⟩

/-- C5: every accepted request records `attempt_no` equal to the count
the rate limiter computed, plus one — both read off the same store
snapshot `subs` at the same time `now`. -/
theorem submit_code_attempt_no_eq_count_plus_one (d : String) (subs : List Submission)
    (st : Student) (p : Problem) (code : String) (now : Int) (o : OracleOutcome)
    (h : recentCount subs st.id p.id now < 10) :
    ∃ s : Submission,
      submit_code d subs st p code now o = Except.ok (subs ++ [s], some s) ∧
      s.attempt_no = recentCount subs st.id p.id now + 1 := by
  obtain ⟨r, hr⟩ := submit_code_accepts d subs st p code now o h
  exact ⟨_, hr, rfl⟩

/-- C5 witness: the first request on an empty store is accepted with
attempt number `0 + 1`. -/
theorem submit_code_attempt_no_eq_count_plus_one_witness :
    recentCount [] exStudent.id exProblem.id 0 < 10 ∧
    ∃ s : Submission,
      submit_code "g" [] exStudent exProblem "c" 0 (OracleOutcome.apiError "down") =
        Except.ok ([] ++ [s], some s) ∧
      s.attempt_no = recentCount [] exStudent.id exProblem.id 0 + 1 :=
  ⟨by decide, submit_code_attempt_no_eq_count_plus_one "g" [] exStudent exProblem "c" 0
      (OracleOutcome.apiError "down") (by decide)⟩

/-- Sequential runs whose requests all fall inside one trailing window
extend the attempt-number sequence gaplessly. -/
theorem runSubmissions_in_window (d : String) (st : Student) (p : Problem) (base : Int)
    (reqs : List Request) :
    ∀ (subs : List Submission),
      (∀ s ∈ subs, s.student_id = st.id ∧ s.problem_id = p.id ∧ base ≤ s.created_at) →
      (∀ r ∈ reqs, base ≤ r.1 ∧ r.1 ≤ base + windowSeconds) →
      subs.length + reqs.length ≤ 10 →
      ∃ L, runSubmissions d st p reqs subs = Except.ok L ∧
        attemptNos L = attemptNos subs ++ List.range' (subs.length + 1) reqs.length := by
  induction reqs with
  | nil =>
    intro subs _ _ _
    exact ⟨subs, rfl, by simp⟩
  | cons req rest ih =>
    obtain ⟨now, code, o⟩ := req
    intro subs hsubs hreqs hlen
    have hbase : base ≤ now ∧ now ≤ base + windowSeconds :=
      hreqs _ (List.mem_cons_self _ _)
    have hcount : recentCount subs st.id p.id now = subs.length :=
      recentCount_all subs st.id p.id now (fun s hs => by
        obtain ⟨h1, h2, h3⟩ := hsubs s hs
        refine ⟨h1, h2, ?_⟩
        have := hbase.2
        simp only [windowSeconds] at this ⊢
        omega)
    have hlt : recentCount subs st.id p.id now < 10 := by
      rw [hcount]
      simp only [List.length_cons] at hlen
      omega
    obtain ⟨r, hr⟩ := submit_code_accepts d subs st p code now o hlt
    set newSub := mkSubmission st p code now (recentCount subs st.id p.id now + 1) r with hnew
    have hrun : runSubmissions d st p ((now, code, o) :: rest) subs =
        runSubmissions d st p rest (subs ++ [newSub]) := by
      simp only [runSubmissions, hr, except_bind_ok]
    have hinv : ∀ s ∈ subs ++ [newSub],
        s.student_id = st.id ∧ s.problem_id = p.id ∧ base ≤ s.created_at := by
      intro s hs
      rcases List.mem_append.mp hs with hs | hs
      · exact hsubs s hs
      · rcases List.mem_singleton.mp hs with rfl
        exact ⟨rfl, rfl, hbase.1⟩
    have hlen2 : (subs ++ [newSub]).length + rest.length ≤ 10 := by
      simp only [List.length_append, List.length_singleton, List.length_cons,
        List.length_nil] at hlen ⊢
      omega
    obtain ⟨L, hL1, hL2⟩ := ih (subs ++ [newSub]) hinv
      (fun q hq => hreqs q (List.mem_cons_of_mem _ hq)) hlen2
    refine ⟨L, by rw [hrun]; exact hL1, ?_⟩
    rw [hL2]
    have hattempt : attemptNos (subs ++ [newSub]) =
        attemptNos subs ++ [subs.length + 1] := by
      simp [attemptNos, hnew, mkSubmission, hcount]
    rw [hattempt, List.length_append, List.length_singleton, List.length_cons,
      List.range'_succ, List.append_assoc]
    rfl

/-- C3 counterexample: two sequential submissions by the same student
for the same problem, 100000 seconds (more than 24 hours) apart, both
receive `attempt_no = 1` — the sequence ordered by creation time is
`[1, 1]`, not `[1, 2]`: the numbering is not gapless-increasing
regardless of the time elapsed between submissions. -/
theorem attempt_no_resets_after_window_cex :
    (runSubmissions "g" exStudent exProblem
        [((0 : Int), "a", OracleOutcome.apiError "down"),
         ((100000 : Int), "b", OracleOutcome.apiError "down")] []).map attemptNos =
      Except.ok [1, 1] ∧
    ([1, 1] : List Nat) ≠ [1, 2] :=
  ⟨rfl, by decide⟩

/-- C3 amended: under sequential submission, the attempt numbers form
the gapless increasing sequence 1, 2, 3, … provided all requests fall
within a single trailing 24-hour window (at most 10 of them); when a
submission arrives after earlier ones have aged out of the window, the
numbering restarts (see the counterexample). -/
theorem attempt_no_gapless_in_window (d : String) (st : Student) (p : Problem) (base : Int)
    (reqs : List Request)
    (hreqs : ∀ r ∈ reqs, base ≤ r.1 ∧ r.1 ≤ base + windowSeconds)
    (hlen : reqs.length ≤ 10) :
    ∃ L, runSubmissions d st p reqs [] = Except.ok L ∧
      attemptNos L = List.range' 1 reqs.length := by
  obtain ⟨L, h1, h2⟩ := runSubmissions_in_window d st p base reqs []
    (by intro s hs; cases hs) hreqs (by simpa using hlen)
  exact ⟨L, h1, by simpa [attemptNos] using h2⟩

/-- C3 amended witness: two requests 100 seconds apart, inside one
window, get attempt numbers `[1, 2]`. -/
theorem attempt_no_gapless_in_window_witness :
    (∀ r ∈ [((0 : Int), "a", OracleOutcome.apiError "down"),
            ((100 : Int), "b", OracleOutcome.apiError "down")],
        (0 : Int) ≤ r.1 ∧ r.1 ≤ 0 + windowSeconds) ∧
    ([((0 : Int), "a", OracleOutcome.apiError "down"),
      ((100 : Int), "b", OracleOutcome.apiError "down")] : List Request).length ≤ 10 ∧
    ∃ L, runSubmissions "g" exStudent exProblem
        [((0 : Int), "a", OracleOutcome.apiError "down"),
         ((100 : Int), "b", OracleOutcome.apiError "down")] [] = Except.ok L ∧
      attemptNos L = List.range' 1
        ([((0 : Int), "a", OracleOutcome.apiError "down"),
          ((100 : Int), "b", OracleOutcome.apiError "down")] : List Request).length :=
  ⟨by decide, by decide,
    attempt_no_gapless_in_window "g" exStudent exProblem 0
      [((0 : Int), "a", OracleOutcome.apiError "down"),
       ((100 : Int), "b", OracleOutcome.apiError "down")] (by decide) (by decide)⟩

/-- C8: the messages are a system/user pair, and the user message
embeds, in this fixed order: problem title, description, sample input
(with the explicit marker `"없음"` when absent), sample output (same
marker), the reference solution, the rubric, the student label, and
the verbatim student code, followed by the fixed instruction block
that demands one JSON object with keys `score`, `max_score`,
`feedback`, `summary`. -/
theorem build_grading_messages_fixed_order (p : Problem) (code label : String) :
    (build_grading_messages p code label).map (fun m => m.role) = ["system", "user"] ∧
    (build_grading_messages p code label).map (fun m => m.content) =
      [system_prompt, user_prompt p code label] ∧
    user_prompt p code label =
      "\n[문제 정보]\n- 제목: " ++ p.title ++
      "\n- 설명: " ++ p.description ++
      "\n\n[예시 입력]\n" ++ orMarker p.sample_input ++
      "\n\n[예시 출력]\n" ++ orMarker p.sample_output ++
      "\n\n[정답 예시 코드]\n" ++ p.answer_code ++
      "\n\n[채점 기준 (루브릭)]\n" ++ p.rubric ++
      "\n\n[학생 정보]\n" ++ label ++
      "\n\n[학생 제출 코드]\n" ++ code ++
      "\n\n위 정보를 바탕으로 아래 JSON 스키마에 맞게 채점 결과를 반환하세요.\n\n- score: 점수 (0 ~ max_score 정수)\n- max_score: 만점 (정수)\n- feedback: 학생에게 보여줄 구체적인 피드백 (한국어, 여러 줄 가능)\n- summary: 교사용 짧은 요약 (한두 문장)\n\nJSON 예시:\n\x7b\n  \"score\": 8,\n  \"max_score\": 10,\n  \"feedback\": \"print 문 끝에 괄호를 닫지 않았습니다. 문제에서 요구한 문장을 그대로 출력하세요.\",\n  \"summary\": \"출력 문법은 이해했으나, 세부 문법 오류로 감점.\"\n\x7d\n" ∧
    orMarker none = "없음" ∧ orMarker (some "") = "없음" :=
  ⟨rfl, rfl, rfl, rfl, rfl⟩

/-- C9: the Prompt Builder is a deterministic pure function — it is a
function of exactly (Problem, code text, student label), so two calls
with equal inputs produce byte-identical system and user messages; in
this embedding it takes no clock, randomness, store or network
parameter at all. -/
theorem build_grading_messages_deterministic (p1 p2 : Problem) (c1 c2 l1 l2 : String)
    (hp : p1 = p2) (hc : c1 = c2) (hl : l1 = l2) :
    build_grading_messages p1 c1 l1 = build_grading_messages p2 c2 l2 := by
  rw [hp, hc, hl]

/-- C9 witness: two calls on identical concrete inputs agree. -/
theorem build_grading_messages_deterministic_witness :
    build_grading_messages exProblem "print(1)" "10301 김일번" =
      build_grading_messages exProblem "print(1)" "10301 김일번" :=
  build_grading_messages_deterministic exProblem exProblem "print(1)" "print(1)"
    "10301 김일번" "10301 김일번" rfl rfl rfl

end CF
